import Mathlib

/-!
Verification of the node-terraform binary-resolution core.

This file gives a shallow embedding of:
  * the platform mapping table and `getPlatformPackage` of `src/platform.js`
    (the library variant, with explicit `null` entries for unsupported
    platforms), and the separate mapping table and mapper embedded in
    `bin/terraform.js` (the strict CLI entry point);
  * the strict resolver `resolveTerraformBinary` (platform packages only)
    and the permissive resolver (platform package first, download fallback);
  * the CLI close-event handler that propagates the child's exit code;
  * the `download-terraform.sh` script's checksum/extraction control flow
    (both the full script and the condensed variant).

Filesystem, module resolution and network effects are modelled as a `World`
record of oracles; the embedded functions are pure functions of a world.
-/

/-- An entry of `PLATFORM_MAPPING`: package name, binary subpath within the
package, and the vendor's (terraform's) platform/arch naming. -/
structure PlatformInfo where
  pkg : String
  subpath : String
  terraformPlatform : String
  terraformArch : String
deriving DecidableEq

/-- The library mapping table of `src/platform.js`: Node `(platform, arch)`
keys to either a `PlatformInfo` or an explicit `null` (modelled `none`) for
explicitly-unsupported platforms.  An association list preserves the object's
own-property semantics: `lookup` returning `none` models an absent key
(JS `undefined`), `some none` models an explicit `null` entry. -/
def PLATFORM_MAPPING : List (String × Option PlatformInfo) := [
  ("darwin arm64", some ⟨"@jahed/terraform-darwin-arm64", "bin/terraform", "darwin", "arm64"⟩),
  ("darwin x64", some ⟨"@jahed/terraform-darwin-x64", "bin/terraform", "darwin", "amd64"⟩),
  ("linux arm64", some ⟨"@jahed/terraform-linux-arm64", "bin/terraform", "linux", "arm64"⟩),
  ("linux x64", some ⟨"@jahed/terraform-linux-x64", "bin/terraform", "linux", "amd64"⟩),
  ("linux arm", some ⟨"@jahed/terraform-linux-arm", "bin/terraform", "linux", "arm"⟩),
  ("win32 arm64", some ⟨"@jahed/terraform-win32-arm64", "terraform.exe", "windows", "arm64"⟩),
  ("win32 x64", some ⟨"@jahed/terraform-win32-x64", "terraform.exe", "windows", "amd64"⟩),
  ("freebsd x64", some ⟨"@jahed/terraform-freebsd-x64", "bin/terraform", "freebsd", "amd64"⟩),
  ("openbsd x64", some ⟨"@jahed/terraform-openbsd-x64", "bin/terraform", "openbsd", "amd64"⟩),
  ("sunos x64", some ⟨"@jahed/terraform-solaris-x64", "bin/terraform", "solaris", "amd64"⟩),
  ("aix x64", none),
  ("android arm64", none),
  ("android arm", none),
  ("android x64", none),
  ("cygwin x64", none),
  ("netbsd x64", none),
  ("haiku x64", none)]

/-- `Object.keys(PLATFORM_MAPPING).filter((k) => PLATFORM_MAPPING[k] !== null).join(", ")`. -/
def supportedPlatformsString : String :=
  String.intercalate ", "
    ((PLATFORM_MAPPING.filter (fun kv => kv.2.isSome)).map (fun kv => kv.1))

/-- The rejection message of `src/platform.js`'s `getPlatformPackage`. -/
def notSupportedMessage (platform arch : String) : String :=
  "Platform \"" ++ platform ++ "\" with architecture \"" ++ arch ++
    "\" is not supported by Terraform. Supported combinations: " ++
    supportedPlatformsString

/-- `getPlatformPackage` of `src/platform.js`, parameterized by the host's
`process.platform` and `os.arch()` values.  The JS falsiness test
`if (!platformInfo)` rejects both an absent key and an explicit `null`. -/
def getPlatformPackage (platform arch : String) : Except String PlatformInfo :=
  match PLATFORM_MAPPING.lookup (platform ++ " " ++ arch) with
  | some (some info) => Except.ok info
  | _ => Except.error (notSupportedMessage platform arch)

/-- The mapping table embedded in `bin/terraform.js` (the strict CLI entry
point): same keys as the supported part of the library table, `@aluxian`
package scope, and no explicit `null` entries. -/
def BIN_PLATFORM_MAPPING : List (String × PlatformInfo) := [
  ("darwin arm64", ⟨"@aluxian/terraform-darwin-arm64", "bin/terraform", "darwin", "arm64"⟩),
  ("darwin x64", ⟨"@aluxian/terraform-darwin-x64", "bin/terraform", "darwin", "amd64"⟩),
  ("linux arm64", ⟨"@aluxian/terraform-linux-arm64", "bin/terraform", "linux", "arm64"⟩),
  ("linux x64", ⟨"@aluxian/terraform-linux-x64", "bin/terraform", "linux", "amd64"⟩),
  ("linux arm", ⟨"@aluxian/terraform-linux-arm", "bin/terraform", "linux", "arm"⟩),
  ("win32 arm64", ⟨"@aluxian/terraform-win32-arm64", "terraform.exe", "windows", "arm64"⟩),
  ("win32 x64", ⟨"@aluxian/terraform-win32-x64", "terraform.exe", "windows", "amd64"⟩),
  ("freebsd x64", ⟨"@aluxian/terraform-freebsd-x64", "bin/terraform", "freebsd", "amd64"⟩),
  ("openbsd x64", ⟨"@aluxian/terraform-openbsd-x64", "bin/terraform", "openbsd", "amd64"⟩),
  ("sunos x64", ⟨"@aluxian/terraform-solaris-x64", "bin/terraform", "solaris", "amd64"⟩)]

/-- The error message thrown by `bin/terraform.js`'s `getPlatformPackage`. -/
def binNotSupportedMessage (platform arch : String) : String :=
  "Platform \"" ++ platform ++ "\" with architecture \"" ++ arch ++
    "\" is not supported."

/-- `getPlatformPackage` of `bin/terraform.js` (throws, modelled as `Except`). -/
def binGetPlatformPackage (platform arch : String) : Except String PlatformInfo :=
  match BIN_PLATFORM_MAPPING.lookup (platform ++ " " ++ arch) with
  | some info => Except.ok info
  | none => Except.error (binNotSupportedMessage platform arch)

/-- The operating-system component of a mapping key (the part before the
space). -/
def keyOs (key : String) : String :=
  String.mk (key.toList.takeWhile (fun c => c ≠ ' '))

/-- Whether a subpath ends in the Windows executable extension `.exe`. -/
def hasExeExtension (s : String) : Bool :=
  s.toList.reverse.take 4 == (String.toList ".exe").reverse

/-- The argument the CLI close handler passes to `process.exit`:
`(code) => process.exit(code || undefined)` — a JS-falsy `code`
(exit code `0` or the `null` of a signal-terminated child) becomes
`undefined` (`none`). -/
def closeHandlerExitArg (code : Option Nat) : Option Nat :=
  match code with
  | some c => if c ≠ 0 then some c else none
  | none => none

/-- `process.exit(arg)`: an explicit code wins; `process.exit(undefined)`
exits with the current `process.exitCode`. -/
def processExit (arg : Option Nat) (currentExitCode : Nat) : Nat :=
  arg.getD currentExitCode

/-- The CLI entry point's exit code after the child's close event.  Nothing
in `bin/terraform.js` sets `process.exitCode`, so it has its default `0`. -/
def cliExitOnClose (code : Option Nat) : Nat :=
  processExit (closeHandlerExitArg code) 0

/-- Models `path.dirname` for the slash-containing module paths
`require.resolve` produces: everything before the last separator. -/
def dirname (p : String) : String :=
  String.mk (((p.data.reverse.dropWhile (fun c => c ≠ '/')).drop 1).reverse)

/-- Models `path.resolve(packageRoot, subpath)` for the relative subpaths of
the mapping table. -/
def pathResolve (root subpath : String) : String :=
  root ++ "/" ++ subpath

/-- The effectful collaborators of a resolution run, as oracles.
`packagePathOf` is `require.resolve` (`none` models the thrown lookup
failure); `fileExistsAt` and `fileExecutableAt` split `fs.access`'s
`F_OK` and `X_OK` checks; `installSucceeds` and `outputsPath` model the
Download Installer collaborator of the permissive resolver. -/
structure ResolverWorld where
  platform : String
  arch : String
  packagePathOf : String → Option String
  fileExistsAt : String → Bool
  fileExecutableAt : String → Bool
  installSucceeds : Bool
  outputsPath : String

/-- `fs.accessSync(p, fs.constants.F_OK | fs.constants.X_OK)` succeeds iff
the file exists and is executable. -/
def accessFOkXOk (w : ResolverWorld) (p : String) : Bool :=
  w.fileExistsAt p && w.fileExecutableAt p

/-- Modelled from the spec: the `fileExists` helper module imported by the
permissive resolver is not among the sources; the spec requires the resolver
to check that the candidate binary file exists AND is executable (both
conditions required). -/
def fileExists (w : ResolverWorld) (p : String) : Bool :=
  w.fileExistsAt p && w.fileExecutableAt p

/-- The `PackageNotFound` message of the strict library resolver. -/
def packageNotFoundMessage (pkg : String) : String :=
  "Could not find platform-specific terraform package \"" ++ pkg ++
    "\". This package should have been automatically installed as an optional dependency.\n\n" ++
    "To fix this:\n" ++
    "  1. Reinstall without --no-optional flag: npm install\n" ++
    "  2. Or manually install the platform package: npm install " ++ pkg ++ "\n" ++
    "  3. If using yarn, ensure optionalDependencies are enabled\n\n" ++
    "Platform packages provide pre-compiled terraform binaries for faster execution."

/-- The `BinaryNotAccessible` message of the strict library resolver. -/
def binaryNotAccessibleMessage (pkg binaryPath : String) : String :=
  "Found platform package \"" ++ pkg ++
    "\" but terraform binary is not accessible at: " ++ binaryPath ++
    "\nThis may indicate a corrupted installation. Try reinstalling: npm install " ++ pkg

/-- The strict resolver (`binaryResolver` variant with no download fallback):
mapper rejection propagates, `require.resolve` failure and an inaccessible
binary are terminal errors, otherwise the verified binary path is returned. -/
def strictResolveTerraformBinary (w : ResolverWorld) : Except String String :=
  match getPlatformPackage w.platform w.arch with
  | Except.error e => Except.error e
  | Except.ok info =>
    match w.packagePathOf info.pkg with
    | none => Except.error (packageNotFoundMessage info.pkg)
    | some packagePath =>
      let binaryPath := pathResolve (dirname packagePath) info.subpath
      if accessFOkXOk w binaryPath then Except.ok binaryPath
      else Except.error (binaryNotAccessibleMessage info.pkg binaryPath)

/-- `resolveTerraformBinary` of `bin/terraform.js`: the same strict pipeline,
but over the CLI entry point's own mapping table and mapper. -/
def binResolveTerraformBinary (w : ResolverWorld) : Except String String :=
  match binGetPlatformPackage w.platform w.arch with
  | Except.error e => Except.error e
  | Except.ok info =>
    match w.packagePathOf info.pkg with
    | none => Except.error (packageNotFoundMessage info.pkg)
    | some packagePath =>
      let binaryPath := pathResolve (dirname packagePath) info.subpath
      if accessFOkXOk w binaryPath then Except.ok binaryPath
      else Except.error (binaryNotAccessibleMessage info.pkg binaryPath)

/-- `tryPlatformPackage` of the permissive resolver: the whole body — the
mapper call included — sits in a try/catch whose catch returns `null`, so a
mapper rejection, a `require.resolve` failure, and an inaccessible binary all
yield `none`. -/
def tryPlatformPackage (w : ResolverWorld) : Option String :=
  match getPlatformPackage w.platform w.arch with
  | Except.error _ => none
  | Except.ok info =>
    match w.packagePathOf info.pkg with
    | none => none
    | some packagePath =>
      let binaryPath := pathResolve (dirname packagePath) info.subpath
      if fileExists w binaryPath then some binaryPath else none

/-- Outcome of a permissive resolution run: the result, and how many times
the Download Installer (`install`) was invoked during the run. -/
structure ResolveOutcome where
  result : Except String String
  installCalls : Nat

/-- Modelled from the spec: `fallbackToDownload` delegates to the Download
Installer (the `getOutputs`/`install` modules are not among the sources).  It
invokes `install` once and returns `outputs.path` on success, propagating the
installer's failure otherwise. -/
def fallbackToDownload (w : ResolverWorld) : ResolveOutcome :=
  if w.installSucceeds then ⟨Except.ok w.outputsPath, 1⟩
  else ⟨Except.error "DownloadFailed", 1⟩

/-- The permissive `resolveTerraformBinary`: platform package first; on any
`tryPlatformPackage` failure, warn and fall back to the download path. -/
def resolveTerraformBinary (w : ResolverWorld) : ResolveOutcome :=
  match tryPlatformPackage w with
  | some p => ⟨Except.ok p, 0⟩
  | none => fallbackToDownload w

/-- Environment of a `download-terraform.sh` run, as oracles for its
effectful steps.  `checksumMatches` is the outcome of
`grep "$ZIP_FILE" "$CHECKSUMS_FILE" | sha256sum -c` (also failing when the
manifest has no line for the archive); `executableAfterChmod` is the
`[[ -x "$BINARY_NAME" ]]` test run after `chmod +x`. -/
structure DLWorld where
  isWindowsArch : Bool
  skipChecksumVerification : Bool
  archiveDownloadOk : Bool
  checksumsDownloadOk : Bool
  sha256sumAvailable : Bool
  shasumAvailable : Bool
  checksumMatches : Bool
  unzipOk : Bool
  binaryPresent : Bool
  executableAfterChmod : Bool
  outputDir : String

/-- Observable outcome of a download-script run: the exit code, whether the
archive was extracted, whether a checksum comparison was performed and
passed, and the reported binary location on success. -/
structure DLResult where
  exitCode : Nat
  extracted : Bool
  verified : Bool
  binaryPath : Option String

/-- The expected binary name: `terraform.exe` for `windows_*` archs,
`terraform` otherwise. -/
def expectedBinaryName (isWindowsArch : Bool) : String :=
  if isWindowsArch then "terraform.exe" else "terraform"

/-- The checksum phase of `scripts/platform/download-terraform.sh`
(lines 85-114): `none` models the hard `exit 1` on a failed comparison;
`some verified` continues into extraction, recording whether a comparison
was performed and passed.  A failed manifest download and a missing SHA256
tool are downgraded to warnings; `SKIP_CHECKSUM_VERIFICATION=true` skips the
phase entirely. -/
def checksumPhase (w : DLWorld) : Option Bool :=
  if w.skipChecksumVerification then some false
  else if !w.checksumsDownloadOk then some false
  else if w.sha256sumAvailable then (if w.checksumMatches then some true else none)
  else if w.shasumAvailable then (if w.checksumMatches then some true else none)
  else some false

/-- `scripts/platform/download-terraform.sh` after argument validation:
download the archive, run the checksum phase, extract, check the expected
binary exists, `chmod +x` and re-check executability off Windows, then
report success with the binary location.  The final smoke test
(`./terraform version`) only warns and cannot change the outcome. -/
def downloadTerraform (w : DLWorld) : DLResult :=
  if !w.archiveDownloadOk then ⟨1, false, false, none⟩
  else
    match checksumPhase w with
    | none => ⟨1, false, false, none⟩
    | some verified =>
      if !w.unzipOk then ⟨1, false, verified, none⟩
      else if !w.binaryPresent then ⟨1, true, verified, none⟩
      else if !w.isWindowsArch && !w.executableAfterChmod then ⟨1, true, verified, none⟩
      else ⟨0, true, verified,
        some (w.outputDir ++ "/" ++ expectedBinaryName w.isWindowsArch)⟩

/-- The condensed download script (same URL scheme, `set -euo pipefail`):
here a failed manifest download aborts the run (no warning downgrade), a
missing SHA256 tool still skips verification silently, and off Windows the
only post-extraction check is the implicit failure of `chmod +x` when the
binary is absent. -/
def downloadTerraformShort (w : DLWorld) : DLResult :=
  if !w.archiveDownloadOk then ⟨1, false, false, none⟩
  else
    let phase : Option Bool :=
      if w.skipChecksumVerification then some false
      else if !w.checksumsDownloadOk then none
      else if w.sha256sumAvailable then (if w.checksumMatches then some true else none)
      else if w.shasumAvailable then (if w.checksumMatches then some true else none)
      else some false
    match phase with
    | none => ⟨1, false, false, none⟩
    | some verified =>
      if !w.unzipOk then ⟨1, false, verified, none⟩
      else if w.isWindowsArch then ⟨0, true, verified, some "terraform.exe"⟩
      else if !w.binaryPresent then ⟨1, true, verified, none⟩
      else ⟨0, true, verified, some "terraform"⟩
/-- A host reporting `(android, arm64)` — an explicitly-unsupported platform —
with no resolvable packages, no accessible files, and a Download Installer
that succeeds. -/
def androidWorld : ResolverWorld where
  platform := "android"
  arch := "arm64"
  packagePathOf := fun _ => none
  fileExistsAt := fun _ => false
  fileExecutableAt := fun _ => false
  installSucceeds := true
  outputsPath := "/home/user/.cache/terraform/1.13.1/terraform"

/-- A `(darwin, arm64)` host whose platform package is installed with an
existing, executable binary, and whose Download Installer would fail if it
were (wrongly) consulted. -/
def darwinFastPathWorld : ResolverWorld where
  platform := "darwin"
  arch := "arm64"
  packagePathOf := fun pkg =>
    if pkg == "@jahed/terraform-darwin-arm64"
    then some "/proj/node_modules/@jahed/terraform-darwin-arm64/package.json"
    else none
  fileExistsAt := fun _ => true
  fileExecutableAt := fun _ => true
  installSucceeds := false
  outputsPath := ""

/-- A run with `SKIP_CHECKSUM_VERIFICATION=true` over an archive whose
checksum does not match the manifest; every other step succeeds. -/
def skipVerificationWorld : DLWorld where
  isWindowsArch := false
  skipChecksumVerification := true
  archiveDownloadOk := true
  checksumsDownloadOk := true
  sha256sumAvailable := true
  shasumAvailable := false
  checksumMatches := false
  unzipOk := true
  binaryPresent := true
  executableAfterChmod := true
  outputDir := "./downloads"

/-- A verification-on run whose archive checksum does not match. -/
def mismatchWorld : DLWorld where
  isWindowsArch := false
  skipChecksumVerification := false
  archiveDownloadOk := true
  checksumsDownloadOk := true
  sha256sumAvailable := true
  shasumAvailable := false
  checksumMatches := false
  unzipOk := true
  binaryPresent := true
  executableAfterChmod := true
  outputDir := "./downloads"

/-- A run where the checksum-manifest download fails (downgraded to a
warning); SHA256 tools are available but never consulted. -/
def manifestFailWorld : DLWorld where
  isWindowsArch := false
  skipChecksumVerification := false
  archiveDownloadOk := true
  checksumsDownloadOk := false
  sha256sumAvailable := true
  shasumAvailable := true
  checksumMatches := true
  unzipOk := true
  binaryPresent := true
  executableAfterChmod := true
  outputDir := "./downloads"

/-- A run on a host with neither `sha256sum` nor `shasum` installed. -/
def noShaToolWorld : DLWorld where
  isWindowsArch := false
  skipChecksumVerification := false
  archiveDownloadOk := true
  checksumsDownloadOk := true
  sha256sumAvailable := false
  shasumAvailable := false
  checksumMatches := true
  unzipOk := true
  binaryPresent := true
  executableAfterChmod := true
  outputDir := "./downloads"

/-- A run with `SKIP_CHECKSUM_VERIFICATION=true` and all steps succeeding. -/
def skipEnvWorld : DLWorld where
  isWindowsArch := false
  skipChecksumVerification := true
  archiveDownloadOk := true
  checksumsDownloadOk := true
  sha256sumAvailable := true
  shasumAvailable := true
  checksumMatches := true
  unzipOk := true
  binaryPresent := true
  executableAfterChmod := true
  outputDir := "./downloads"

/-- `strContains hay needle`: the needle occurs in the hay as a contiguous
substring (an infix of the character list). -/
def strContains (hay needle : String) : Prop :=
  needle.data <:+: hay.data

instance strContains_decidable (hay needle : String) :
    Decidable (strContains hay needle) :=
  inferInstanceAs (Decidable (needle.data <:+: hay.data))

/-- C5: for every (os, arch) string pair — pairs absent from the mapping
table and pairs mapped to an explicit null entry included —
`getPlatformPackage` either returns the stored descriptor or rejects with the
not-supported error; it never propagates an absent or null result to the
caller. -/
theorem getPlatformPackage_total_never_absent (platform arch : String) :
    (∃ info, PLATFORM_MAPPING.lookup (platform ++ " " ++ arch) = some (some info) ∧
      getPlatformPackage platform arch = Except.ok info) ∨
    ((PLATFORM_MAPPING.lookup (platform ++ " " ++ arch) = some none ∨
      PLATFORM_MAPPING.lookup (platform ++ " " ++ arch) = none) ∧
      getPlatformPackage platform arch = Except.error (notSupportedMessage platform arch)) := by
  cases h : PLATFORM_MAPPING.lookup (platform ++ " " ++ arch) with
  | none => exact Or.inr ⟨Or.inr rfl, by simp [getPlatformPackage, h]⟩
  | some o =>
    cases o with
    | none => exact Or.inr ⟨Or.inl rfl, by simp [getPlatformPackage, h]⟩
    | some info => exact Or.inl ⟨info, rfl, by simp [getPlatformPackage, h]⟩

/-- C8: in both mapping tables, an entry's binary subpath ends in `.exe`
exactly when the entry's operating-system component is `win32`. -/
theorem windows_subpath_has_exe_extension :
    (∀ kv ∈ PLATFORM_MAPPING, ∀ info ∈ kv.2.toList,
      (hasExeExtension info.subpath = true ↔ keyOs kv.1 = "win32")) ∧
    (∀ kv ∈ BIN_PLATFORM_MAPPING,
      (hasExeExtension kv.2.subpath = true ↔ keyOs kv.1 = "win32")) := by
  decide

/-- C7: for a child process that exits normally with code `n ≤ 255`, the CLI
entry point's own exit code equals `n` — nonzero codes pass through the
`code || undefined` argument directly, and code `0` exits through the default
`process.exitCode`, which is also `0`. -/
theorem cli_exit_code_passthrough (n : Nat) (h : n ≤ 255) :
    cliExitOnClose (some n) = n := by
  by_cases h0 : n = 0
  · subst h0; rfl
  · simp [cliExitOnClose, closeHandlerExitArg, processExit, h0]

/-- C7 witness: concrete instance at exit code 42. -/
theorem cli_exit_code_passthrough_witness :
    42 ≤ 255 ∧ cliExitOnClose (some 42) = 42 :=
  ⟨by decide, cli_exit_code_passthrough 42 (by decide)⟩

/-- C9: a signal-terminated child reports a `null` exit code on the close
event, and the CLI entry point then exits with status 0, reporting the run
as success. -/
theorem signal_terminated_child_exits_zero : cliExitOnClose none = 0 := rfl

/-- C2 counterexample: on `(android, arm64)` the Platform Mapper rejects with
the not-supported error, yet the permissive resolver does not fail with it —
it invokes the Download Installer fallback (once) and returns the downloaded
path, because `tryPlatformPackage`'s catch-all swallows the rejection. -/
theorem permissive_resolver_android_invokes_installer :
    getPlatformPackage "android" "arm64" =
      Except.error (notSupportedMessage "android" "arm64") ∧
    resolveTerraformBinary androidWorld =
      ⟨Except.ok "/home/user/.cache/terraform/1.13.1/terraform", 1⟩ := by
  exact ⟨rfl, rfl⟩

/-- C2 (amended): for every host whose (os, arch) pair the Platform Mapper
reports as not supported, the permissive `resolveTerraformBinary` does not
fail with the UnsupportedPlatform error: the rejection is caught inside
`tryPlatformPackage`, and the resolution is exactly the Download Installer
fallback, invoked once.  Only the strict resolver variants fail with the
mapper's error before any further access. -/
theorem permissive_resolver_unsupported_falls_back (w : ResolverWorld)
    (e : String) (h : getPlatformPackage w.platform w.arch = Except.error e) :
    resolveTerraformBinary w = fallbackToDownload w ∧
    (resolveTerraformBinary w).installCalls = 1 ∧
    strictResolveTerraformBinary w = Except.error e := by
  have ht : tryPlatformPackage w = none := by
    unfold tryPlatformPackage
    rw [h]
  refine ⟨?_, ?_, ?_⟩
  · unfold resolveTerraformBinary
    rw [ht]
  · unfold resolveTerraformBinary
    rw [ht]
    unfold fallbackToDownload
    cases w.installSucceeds <;> rfl
  · unfold strictResolveTerraformBinary
    rw [h]

/-- C2 witness: the amended theorem applied to the `(android, arm64)` world. -/
theorem permissive_resolver_unsupported_falls_back_witness :
    resolveTerraformBinary androidWorld = fallbackToDownload androidWorld ∧
    (resolveTerraformBinary androidWorld).installCalls = 1 ∧
    strictResolveTerraformBinary androidWorld =
      Except.error (notSupportedMessage "android" "arm64") :=
  permissive_resolver_unsupported_falls_back androidWorld
    (notSupportedMessage "android" "arm64") rfl

/-- When the platform-package fast path fails, the permissive resolution is
exactly the fallback: one `install` invocation, whose failure fails the run. -/
theorem resolve_of_try_none (w : ResolverWorld)
    (h : tryPlatformPackage w = none) :
    resolveTerraformBinary w = fallbackToDownload w ∧
    (resolveTerraformBinary w).installCalls = 1 ∧
    (w.installSucceeds = false →
      (resolveTerraformBinary w).result = Except.error "DownloadFailed") := by
  have hr : resolveTerraformBinary w = fallbackToDownload w := by
    unfold resolveTerraformBinary
    rw [h]
  refine ⟨hr, ?_, ?_⟩
  · rw [hr]
    unfold fallbackToDownload
    cases w.installSucceeds <;> rfl
  · intro hfail
    rw [hr]
    unfold fallbackToDownload
    rw [hfail]
    rfl

/-- C3: given a resolvable platform descriptor, the permissive resolver
invokes the Download Installer exactly once when the platform package cannot
be resolved or its binary is not accessible (failing only if the installer
fails), and never invokes it when the package resolves and its binary is
accessible — the fast path returns the binary path with zero installer
calls. -/
theorem download_installer_exactly_once (w : ResolverWorld)
    (info : PlatformInfo)
    (hinfo : getPlatformPackage w.platform w.arch = Except.ok info) :
    ((w.packagePathOf info.pkg = none ∨
      (∃ pp, w.packagePathOf info.pkg = some pp ∧
        fileExists w (pathResolve (dirname pp) info.subpath) = false)) →
      ((resolveTerraformBinary w).installCalls = 1 ∧
       (w.installSucceeds = false →
         (resolveTerraformBinary w).result = Except.error "DownloadFailed"))) ∧
    (∀ pp, w.packagePathOf info.pkg = some pp →
      fileExists w (pathResolve (dirname pp) info.subpath) = true →
      ((resolveTerraformBinary w).installCalls = 0 ∧
       (resolveTerraformBinary w).result =
         Except.ok (pathResolve (dirname pp) info.subpath))) := by
  constructor
  · rintro (hnone | ⟨pp, hpp, hacc⟩)
    · have ht : tryPlatformPackage w = none := by
        unfold tryPlatformPackage
        rw [hinfo]
        simp [hnone]
      exact ⟨(resolve_of_try_none w ht).2.1, (resolve_of_try_none w ht).2.2⟩
    · have ht : tryPlatformPackage w = none := by
        unfold tryPlatformPackage
        rw [hinfo]
        simp [hpp, hacc]
      exact ⟨(resolve_of_try_none w ht).2.1, (resolve_of_try_none w ht).2.2⟩
  · intro pp hpp hacc
    have ht : tryPlatformPackage w =
        some (pathResolve (dirname pp) info.subpath) := by
      unfold tryPlatformPackage
      rw [hinfo]
      simp [hpp, hacc]
    constructor
    · unfold resolveTerraformBinary
      rw [ht]
    · unfold resolveTerraformBinary
      rw [ht]

/-- C3 witness: on the fast-path world the resolver returns the package's
binary path with zero Download Installer invocations. -/
theorem download_installer_exactly_once_witness :
    (resolveTerraformBinary darwinFastPathWorld).installCalls = 0 ∧
    (resolveTerraformBinary darwinFastPathWorld).result =
      Except.ok "/proj/node_modules/@jahed/terraform-darwin-arm64/bin/terraform" :=
  (download_installer_exactly_once darwinFastPathWorld
      ⟨"@jahed/terraform-darwin-arm64", "bin/terraform", "darwin", "arm64"⟩ rfl).2
    "/proj/node_modules/@jahed/terraform-darwin-arm64/package.json" rfl rfl

/-- The strict post-mapper pipeline only returns a path the
`F_OK | X_OK` access check accepted. -/
theorem resolvePipeline_access (w : ResolverWorld) (info : PlatformInfo)
    (p : String)
    (h : (match w.packagePathOf info.pkg with
      | none => Except.error (packageNotFoundMessage info.pkg)
      | some packagePath =>
        let binaryPath := pathResolve (dirname packagePath) info.subpath
        if accessFOkXOk w binaryPath then Except.ok binaryPath
        else Except.error (binaryNotAccessibleMessage info.pkg binaryPath))
      = Except.ok p) :
    w.fileExistsAt p = true ∧ w.fileExecutableAt p = true := by
  split at h
  · simp at h
  · dsimp only at h
    split at h
    · next hcond =>
      simp only [Except.ok.injEq] at h
      subst h
      unfold accessFOkXOk at hcond
      simp only [Bool.and_eq_true] at hcond
      exact hcond
    · simp at h

/-- C4: whenever any of the three platform-package fast paths — the strict
library resolver, the CLI entry point's resolver, or the permissive
resolver's `tryPlatformPackage` — returns a binary path, the file at that
path exists and is executable; a binary that exists without execute
permission is never returned as a success. -/
theorem fast_path_returns_existing_executable_binary (w : ResolverWorld)
    (p : String) :
    (strictResolveTerraformBinary w = Except.ok p →
      w.fileExistsAt p = true ∧ w.fileExecutableAt p = true) ∧
    (binResolveTerraformBinary w = Except.ok p →
      w.fileExistsAt p = true ∧ w.fileExecutableAt p = true) ∧
    (tryPlatformPackage w = some p →
      w.fileExistsAt p = true ∧ w.fileExecutableAt p = true) := by
  refine ⟨?_, ?_, ?_⟩
  · intro h
    unfold strictResolveTerraformBinary at h
    split at h
    · simp at h
    · exact resolvePipeline_access w _ p h
  · intro h
    unfold binResolveTerraformBinary at h
    split at h
    · simp at h
    · exact resolvePipeline_access w _ p h
  · intro h
    unfold tryPlatformPackage at h
    split at h
    · simp at h
    · split at h
      · simp at h
      · dsimp only at h
        split at h
        · next hcond =>
          simp only [Option.some.injEq] at h
          subst h
          unfold fileExists at hcond
          simp only [Bool.and_eq_true] at hcond
          exact hcond
        · simp at h

/-- C4 witness: on the fast-path world the strict resolver returns the
package binary path, and that path exists and is executable. -/
theorem fast_path_returns_existing_executable_binary_witness :
    darwinFastPathWorld.fileExistsAt
        "/proj/node_modules/@jahed/terraform-darwin-arm64/bin/terraform" = true ∧
    darwinFastPathWorld.fileExecutableAt
        "/proj/node_modules/@jahed/terraform-darwin-arm64/bin/terraform" = true :=
  (fast_path_returns_existing_executable_binary darwinFastPathWorld
    "/proj/node_modules/@jahed/terraform-darwin-arm64/bin/terraform").1 rfl

/-- C1 counterexample: with `SKIP_CHECKSUM_VERIFICATION=true` the download
script extracts an archive whose checksum does not match the manifest and
reports its binary path with exit code 0, no verification performed — a
binary path is returned without its checksum having been verified. -/
theorem download_skip_env_returns_unverified_path :
    skipVerificationWorld.checksumMatches = false ∧
    downloadTerraform skipVerificationWorld =
      ⟨0, true, false, some "./downloads/terraform"⟩ :=
  ⟨rfl, rfl⟩

/-- C1 (amended): whenever checksum verification is actually performed — not
skipped via `SKIP_CHECKSUM_VERIFICATION`, the manifest download succeeded,
and a SHA256 tool is available — a mismatching archive makes both download
scripts exit 1 without extracting and without reporting any binary path;
when verification is skipped, a binary path can be reported unverified. -/
theorem checksum_mismatch_fails_before_extraction (w : DLWorld)
    (hskip : w.skipChecksumVerification = false)
    (hsums : w.checksumsDownloadOk = true)
    (htool : w.sha256sumAvailable = true ∨ w.shasumAvailable = true)
    (hmatch : w.checksumMatches = false) :
    downloadTerraform w = ⟨1, false, false, none⟩ ∧
    downloadTerraformShort w = ⟨1, false, false, none⟩ := by
  cases htool with
  | inl h1 =>
    constructor
    · unfold downloadTerraform checksumPhase
      cases ha : w.archiveDownloadOk <;> simp [ha, hskip, hsums, h1, hmatch]
    · unfold downloadTerraformShort
      cases ha : w.archiveDownloadOk <;> simp [ha, hskip, hsums, h1, hmatch]
  | inr h2 =>
    constructor
    · unfold downloadTerraform checksumPhase
      cases ha : w.archiveDownloadOk <;> cases h3 : w.sha256sumAvailable <;>
        simp [ha, hskip, hsums, h2, h3, hmatch]
    · unfold downloadTerraformShort
      cases ha : w.archiveDownloadOk <;> cases h3 : w.sha256sumAvailable <;>
        simp [ha, hskip, hsums, h2, h3, hmatch]

/-- C1 witness: the amended theorem at the concrete mismatch world. -/
theorem checksum_mismatch_fails_before_extraction_witness :
    downloadTerraform mismatchWorld = ⟨1, false, false, none⟩ ∧
    downloadTerraformShort mismatchWorld = ⟨1, false, false, none⟩ :=
  checksum_mismatch_fails_before_extraction mismatchWorld rfl rfl (Or.inl rfl) rfl

/-- C10: runs exist in which the download script extracts the archive and
reports success (exit 0 and a binary location) with no checksum verification
performed: the skip environment variable set, the manifest download failing
(downgraded to a warning), or no SHA256 tool available on the host. -/
theorem unverified_extraction_runs_exist :
    downloadTerraform skipEnvWorld =
      ⟨0, true, false, some "./downloads/terraform"⟩ ∧
    downloadTerraform manifestFailWorld =
      ⟨0, true, false, some "./downloads/terraform"⟩ ∧
    downloadTerraform noShaToolWorld =
      ⟨0, true, false, some "./downloads/terraform"⟩ :=
  ⟨rfl, rfl, rfl⟩

/-- Containment is preserved by prepending. -/
theorem strContains_append_right (s t k : String) (h : strContains t k) :
    strContains (s ++ t) k := by
  obtain ⟨u, v, huv⟩ := h
  exact ⟨s.data ++ u, v, by
    rw [String.data_append, ← huv]
    simp [List.append_assoc]⟩

/-- Containment is preserved by appending. -/
theorem strContains_append_left (s t k : String) (h : strContains s k) :
    strContains (s ++ t) k := by
  obtain ⟨u, v, huv⟩ := h
  exact ⟨u, v ++ t.data, by
    rw [String.data_append, ← huv]
    simp [List.append_assoc]⟩

/-- Every string contains itself. -/
theorem strContains_refl (s : String) : strContains s s :=
  ⟨[], [], by simp⟩

/-- The supported-combinations list the library mapper embeds in its error. -/
theorem supportedPlatformsString_eq :
    supportedPlatformsString =
      "darwin arm64, darwin x64, linux arm64, linux x64, linux arm, win32 arm64, win32 x64, freebsd x64, openbsd x64, sunos x64" :=
  rfl

set_option maxRecDepth 8192 in
/-- Every supported key occurs in the supported-combinations list. -/
theorem supported_keys_in_string :
    ∀ kv ∈ PLATFORM_MAPPING, kv.2.isSome = true →
      strContains supportedPlatformsString kv.1 := by
  decide

/-- C6 counterexample: `darwin arm64` is a supported combination in the CLI
entry point's table, yet the CLI mapper's not-supported error for
`(android, arm64)` does not contain it — the strict CLI entry point's mapper
does not list the supported combinations in its error. -/
theorem bin_mapper_error_omits_supported_combinations :
    BIN_PLATFORM_MAPPING.lookup "darwin arm64" =
      some ⟨"@aluxian/terraform-darwin-arm64", "bin/terraform", "darwin", "arm64"⟩ ∧
    binGetPlatformPackage "android" "arm64" =
      Except.error (binNotSupportedMessage "android" "arm64") ∧
    ¬ strContains (binNotSupportedMessage "android" "arm64") "darwin arm64" := by
  refine ⟨rfl, rfl, ?_⟩
  unfold strContains binNotSupportedMessage
  decide

/-- C6 (amended): for every unsupported (os, arch) pair, each mapper
variant's not-supported error names the combination — both the os and the
arch strings occur in the message; the library mapper's error additionally
lists every supported combination, while the CLI entry point's mapper's
error does not list them. -/
theorem not_supported_error_names_combination (p a : String)
    (hlib : PLATFORM_MAPPING.lookup (p ++ " " ++ a) = some none ∨
      PLATFORM_MAPPING.lookup (p ++ " " ++ a) = none) :
    (getPlatformPackage p a = Except.error (notSupportedMessage p a) ∧
      strContains (notSupportedMessage p a) p ∧
      strContains (notSupportedMessage p a) a ∧
      (∀ kv ∈ PLATFORM_MAPPING, kv.2.isSome = true →
        strContains (notSupportedMessage p a) kv.1)) ∧
    (BIN_PLATFORM_MAPPING.lookup (p ++ " " ++ a) = none →
      binGetPlatformPackage p a = Except.error (binNotSupportedMessage p a) ∧
      strContains (binNotSupportedMessage p a) p ∧
      strContains (binNotSupportedMessage p a) a) := by
  constructor
  · refine ⟨?_, ?_, ?_, ?_⟩
    · unfold getPlatformPackage
      cases hlib with
      | inl h => rw [h]
      | inr h => rw [h]
    · unfold notSupportedMessage
      exact strContains_append_left _ _ _ (strContains_append_left _ _ _
        (strContains_append_left _ _ _ (strContains_append_left _ _ _
          (strContains_append_right _ _ _ (strContains_refl p)))))
    · unfold notSupportedMessage
      exact strContains_append_left _ _ _ (strContains_append_left _ _ _
        (strContains_append_right _ _ _ (strContains_refl a)))
    · intro kv hkv hs
      unfold notSupportedMessage
      exact strContains_append_right _ _ _ (supported_keys_in_string kv hkv hs)
  · intro hbin
    refine ⟨?_, ?_, ?_⟩
    · unfold binGetPlatformPackage
      rw [hbin]
    · unfold binNotSupportedMessage
      exact strContains_append_left _ _ _ (strContains_append_left _ _ _
        (strContains_append_left _ _ _
          (strContains_append_right _ _ _ (strContains_refl p))))
    · unfold binNotSupportedMessage
      exact strContains_append_left _ _ _
        (strContains_append_right _ _ _ (strContains_refl a))

/-- C6 witness: the amended theorem at the unsupported pair
`(android, arm64)`. -/
theorem not_supported_error_names_combination_witness :
    getPlatformPackage "android" "arm64" =
      Except.error (notSupportedMessage "android" "arm64") ∧
    strContains (notSupportedMessage "android" "arm64") "android" ∧
    binGetPlatformPackage "android" "arm64" =
      Except.error (binNotSupportedMessage "android" "arm64") := by
  have h := not_supported_error_names_combination "android" "arm64" (Or.inl rfl)
  exact ⟨h.1.1, h.1.2.1, (h.2 rfl).1⟩

/-- C8 witness: the `win32 arm64` entry's subpath carries the `.exe`
extension. -/
theorem windows_subpath_has_exe_extension_witness :
    hasExeExtension "terraform.exe" = true :=
  (windows_subpath_has_exe_extension.1
    ("win32 arm64",
      some ⟨"@jahed/terraform-win32-arm64", "terraform.exe", "windows", "arm64"⟩)
    (by decide)
    ⟨"@jahed/terraform-win32-arm64", "terraform.exe", "windows", "arm64"⟩
    (by decide)).mpr (by decide)
